import Mathlib

/-!
Shallow embedding of the `iCell` thread-confinement cell from `src/cell.rs`
of the `ibag` crate, together with theorems checking the specification's
claims about it.

Modelling conventions:
* `std::thread::ThreadId` is modelled by `Nat`; every operation that reads
  `thread::current().id()` in Rust takes the calling thread's identity as an
  explicit argument `tid`.
* The `Arc<Mutex<CellGuard>>` ownership record is modelled by an immutable
  `CellGuard` value carried in the cell; an operation that mutates the record
  under the mutex returns the updated cell state.  The embedding is
  sequential: each theorem speaks about one linearized call.
* A Rust `panic!` / fatal abort is modelled by `Option`: `none` is the abort,
  `some r` is normal completion with result `r`.
* `mem::needs_drop::<T>()` is a compile-time property of the payload type and
  is modelled as an explicit boolean argument to the drop semantics.
-/

namespace IBag

/-- Thread identity, modelling `std::thread::ThreadId`. -/
abbrev ThreadId := Nat

/-- Error returned when `take_ownership` is called on a frozen record
(`errors.rs`, `FailTakeOwnership`). -/
inductive FailTakeOwnership where
  | mk
deriving DecidableEq

/-- Error returned by the checked accessors when called from a non-owner
thread (`errors.rs`, `InvalidThreadAccess`). -/
inductive InvalidThreadAccess where
  | mk
deriving DecidableEq

/-- The ownership record guarded by the mutex in the Rust code
(`cell.rs`, `CellGuard`): a freeze flag and the owning thread. -/
structure CellGuard where
  freeze : Bool
  thread_id : ThreadId
deriving DecidableEq

/-- The thread-confinement cell (`cell.rs`, `iCell<T>`): a payload value and
its ownership record. -/
structure iCell (α : Type) where
  value : α
  guard : CellGuard
deriving DecidableEq

/-- Embeds `iCell::new(value, freeze)`: the record starts with the given
freeze flag and the creating thread `tid` as owner. -/
def iCell.new (v : α) (freeze : Bool) (tid : ThreadId) : iCell α :=
  ⟨v, ⟨freeze, tid⟩⟩

/-- Embeds `iCell::take_ownership()` called from thread `tid`: if the record
is frozen, return the failure error and leave the record untouched; otherwise
set the owner to `tid`, set the freeze flag, and return `Ok(true)`.  The pair
carries the Rust return value and the post-call cell state. -/
def iCell.take_ownership (tid : ThreadId) (c : iCell α) :
    Except FailTakeOwnership Bool × iCell α :=
  if c.guard.freeze then
    (Except.error FailTakeOwnership.mk, c)
  else
    (Except.ok true, ⟨c.value, ⟨true, tid⟩⟩)

/-- Embeds `iCell::is_valid()`: true iff the calling thread is the recorded
owner. -/
def iCell.is_valid (tid : ThreadId) (c : iCell α) : Bool :=
  tid == c.guard.thread_id

/-- Embeds the private `iCell::assert_thread()`: `none` models the panic
taken when the calling thread is not the owner. -/
def iCell.assert_thread (tid : ThreadId) (c : iCell α) : Option Unit :=
  if c.is_valid tid then some () else none

/-- Embeds the unchecked accessor `iCell::get()`: panics (`none`) off-thread,
otherwise yields the payload the returned reference points at. -/
def iCell.get (tid : ThreadId) (c : iCell α) : Option α :=
  (c.assert_thread tid).map fun _ => c.value

/-- Embeds the unchecked accessor `iCell::get_mut()`: panics (`none`)
off-thread, otherwise yields the payload the returned mutable reference
points at. -/
def iCell.get_mut (tid : ThreadId) (c : iCell α) : Option α :=
  (c.assert_thread tid).map fun _ => c.value

/-- Embeds `iCell::into_inner()`: panics (`none`) off-thread via
`assert_thread`, otherwise moves the payload out (wrapping `self` in
`ManuallyDrop` so the destructor-enforcement path never runs on it). -/
def iCell.into_inner (tid : ThreadId) (c : iCell α) : Option α :=
  (c.assert_thread tid).map fun _ => c.value

/-- Embeds `iCell::try_into_inner()`: checks `is_valid` first, then either
moves the value out through `into_inner` (which cannot panic under the
check) or returns the cell itself, untouched, in the error variant. -/
def iCell.try_into_inner (tid : ThreadId) (c : iCell α) :
    Option (Except (iCell α) α) :=
  if c.is_valid tid then
    (c.into_inner tid).map Except.ok
  else
    some (Except.error c)

/-- Embeds `iCell::try_get()`: the ownership check decides between the
payload and the `InvalidThreadAccess` error; there is no panic path in the
source of this function. -/
def iCell.try_get (tid : ThreadId) (c : iCell α) :
    Except InvalidThreadAccess α :=
  if c.is_valid tid then Except.ok c.value
  else Except.error InvalidThreadAccess.mk

/-- Embeds `iCell::try_get_mut()`: checks `is_valid`, then reaches the value
through `get_mut` (whose panic path is modelled, and is unreachable under
the check); otherwise returns the `InvalidThreadAccess` error. -/
def iCell.try_get_mut (tid : ThreadId) (c : iCell α) :
    Option (Except InvalidThreadAccess α) :=
  if c.is_valid tid then
    (c.get_mut tid).map Except.ok
  else
    some (Except.error InvalidThreadAccess.mk)

/-- Observable outcome of destroying a cell, for the embedding of
`impl Drop for iCell`. -/
inductive DropOutcome where
  | ranTeardown
  | noTeardown
  | abort
deriving DecidableEq

/-- Embeds `impl<T> Drop for iCell<T>`: when the payload type needs drop
(`mem::needs_drop::<T>()`, passed as `needsDrop`), teardown runs only on the
owner thread and any other thread aborts; when it does not, nothing
observable happens on any thread. -/
def iCell.drop (needsDrop : Bool) (tid : ThreadId) (c : iCell α) :
    DropOutcome :=
  if needsDrop then
    if c.is_valid tid then DropOutcome.ranTeardown else DropOutcome.abort
  else
    DropOutcome.noTeardown

/-- Embeds `impl<T: Clone> Clone for iCell<T>`: reads the payload through the
unchecked accessor `get` (so it panics off-thread, modelled by `none`) and
builds a fresh, unfrozen cell owned by the cloning thread. -/
def iCell.clone (tid : ThreadId) (c : iCell α) : Option (iCell α) :=
  (c.get tid).map fun v => iCell.new v false tid

/-- Embeds `impl<T: Debug> Debug for iCell<T>`: formats through the checked
accessor `try_get`, substituting the placeholder text when access is denied;
the function is total, as the source has no panic path. -/
def iCell.debug_fmt (dbg : α → String) (tid : ThreadId) (c : iCell α) :
    String :=
  match c.try_get tid with
  | Except.ok v => "Fragile \x7b value: " ++ dbg v ++ " \x7d"
  | Except.error _ => "Fragile \x7b value: <invalid thread> \x7d"

/-- C3: for every value and every freeze flag, a cell built by `new` is owned
by the creating thread: `is_valid` is true there immediately after
construction, regardless of the flag. -/
theorem iCell.new_is_valid {α : Type} (v : α) (frozen : Bool) (t : ThreadId) :
    iCell.is_valid t (iCell.new v frozen t) = true := by
  simp [iCell.new, iCell.is_valid]

/-- C1: once the record's freeze flag is true — at creation or after a
successful transfer — every later `take_ownership` call, from any thread,
returns the failure error and leaves the whole record (owner included)
unchanged, and the flag stays true; hence at most one successful transfer
is possible per cell. -/
theorem iCell.take_ownership_locked_single_shot {α : Type} (c : iCell α)
    (t : ThreadId) (h : c.guard.freeze = true) :
    iCell.take_ownership t c = (Except.error FailTakeOwnership.mk, c) ∧
    ((iCell.take_ownership t c).2).guard.freeze = true := by
  constructor <;> simp [iCell.take_ownership, h]

/-- Witness for C1 at a concrete pre-frozen cell. -/
theorem iCell.take_ownership_locked_single_shot_witness :
    (iCell.new (5 : Nat) true 0).guard.freeze = true ∧
    iCell.take_ownership 1 (iCell.new (5 : Nat) true 0) =
      (Except.error FailTakeOwnership.mk, iCell.new (5 : Nat) true 0) :=
  ⟨by decide,
    (iCell.take_ownership_locked_single_shot (iCell.new (5 : Nat) true 0) 1
      (by decide)).1⟩

/-- C2: `take_ownership` from thread `t` returns the failure error without
mutating the record when the freeze flag is set, and otherwise records `t`
as owner, sets the flag, keeps the payload, and returns success (so the
caller becomes valid). -/
theorem iCell.take_ownership_spec {α : Type} (c : iCell α) (t : ThreadId) :
    (c.guard.freeze = true →
      (iCell.take_ownership t c).1 = Except.error FailTakeOwnership.mk ∧
      (iCell.take_ownership t c).2 = c) ∧
    (c.guard.freeze = false →
      (iCell.take_ownership t c).1 = Except.ok true ∧
      ((iCell.take_ownership t c).2).guard.thread_id = t ∧
      ((iCell.take_ownership t c).2).guard.freeze = true ∧
      ((iCell.take_ownership t c).2).value = c.value ∧
      iCell.is_valid t ((iCell.take_ownership t c).2) = true) := by
  cases h : c.guard.freeze <;>
    simp [iCell.take_ownership, iCell.is_valid, h]

/-- Witness for C2: a successful transfer on a concrete unfrozen cell. -/
theorem iCell.take_ownership_spec_witness :
    (iCell.take_ownership 9 (iCell.new (4 : Nat) false 5)).1 =
      Except.ok true :=
  ((iCell.take_ownership_spec (iCell.new (4 : Nat) false 5) 9).2
    (by decide)).1

/-- C4: `try_get` errs exactly when `is_valid` is false and otherwise yields
the payload; `try_get_mut` always completes (never panics, `some`) with the
same error-iff-invalid behaviour.  Neither returns an updated record: both
take the cell by shared or exclusive reference and only read the guard. -/
theorem iCell.try_accessors_spec {α : Type} (c : iCell α) (t : ThreadId) :
    (iCell.try_get t c = Except.error InvalidThreadAccess.mk ↔
      iCell.is_valid t c = false) ∧
    (iCell.is_valid t c = true → iCell.try_get t c = Except.ok c.value) ∧
    (iCell.try_get_mut t c =
      some (if iCell.is_valid t c then Except.ok c.value
            else Except.error InvalidThreadAccess.mk)) := by
  cases h : iCell.is_valid t c <;>
    simp [iCell.try_get, iCell.try_get_mut, iCell.get_mut,
      iCell.assert_thread, h]

/-- Witness for C4: `try_get` succeeds on the creating thread of a concrete
cell. -/
theorem iCell.try_accessors_spec_witness :
    iCell.try_get 0 (iCell.new (3 : Nat) false 0) = Except.ok 3 :=
  (iCell.try_accessors_spec (iCell.new (3 : Nat) false 0) 0).2.1 (by decide)

/-- C5: the unchecked accessors `get`, `get_mut` and `into_inner` abort
(`none`) exactly when `is_valid` is false at the call, and on the owner
thread they succeed with the payload. -/
theorem iCell.unchecked_abort_iff {α : Type} (c : iCell α) (t : ThreadId) :
    (iCell.get t c = none ↔ iCell.is_valid t c = false) ∧
    (iCell.get_mut t c = none ↔ iCell.is_valid t c = false) ∧
    (iCell.into_inner t c = none ↔ iCell.is_valid t c = false) ∧
    (iCell.is_valid t c = true →
      iCell.get t c = some c.value ∧
      iCell.get_mut t c = some c.value ∧
      iCell.into_inner t c = some c.value) := by
  cases h : iCell.is_valid t c <;>
    simp [iCell.get, iCell.get_mut, iCell.into_inner, iCell.assert_thread, h]

/-- Witness for C5: `get` succeeds on the creating thread of a concrete
cell. -/
theorem iCell.unchecked_abort_iff_witness :
    iCell.get 0 (iCell.new (3 : Nat) false 0) = some 3 :=
  ((iCell.unchecked_abort_iff (iCell.new (3 : Nat) false 0) 0).2.2.2
    (by decide)).1

/-- C6: destroying a cell whose payload needs drop aborts from a non-owner
thread and runs the teardown from the owner thread; a payload with no
teardown makes destruction a silent no-op from any thread. -/
theorem iCell.drop_spec {α : Type} (c : iCell α) (t : ThreadId) :
    (iCell.is_valid t c = false →
      iCell.drop true t c = DropOutcome.abort) ∧
    (iCell.is_valid t c = true →
      iCell.drop true t c = DropOutcome.ranTeardown) ∧
    iCell.drop false t c = DropOutcome.noTeardown := by
  cases h : iCell.is_valid t c <;> simp [iCell.drop, h]

/-- Witness for C6: dropping a needs-drop payload from a foreign thread on a
concrete cell aborts. -/
theorem iCell.drop_spec_witness :
    iCell.drop true 1 (iCell.new (0 : Nat) false 0) = DropOutcome.abort :=
  (iCell.drop_spec (iCell.new (0 : Nat) false 0) 1).1 (by decide)

/-- C7: round trip — `into_inner` (and `try_into_inner`, with success) on a
freshly built cell, called from the creating thread, returns exactly the
original value, for either freeze flag; the value is moved out through the
`ManuallyDrop` wrapper, so the drop-enforcement path is bypassed by
construction of `into_inner`. -/
theorem iCell.new_into_inner_roundtrip {α : Type} (v : α) (frozen : Bool)
    (t : ThreadId) :
    iCell.into_inner t (iCell.new v frozen t) = some v ∧
    iCell.try_into_inner t (iCell.new v frozen t) = some (Except.ok v) := by
  simp [iCell.new, iCell.into_inner, iCell.try_into_inner,
    iCell.assert_thread, iCell.is_valid]

/-- C8: `try_into_inner` from a thread where `is_valid` is false completes
without panic (`some`) and hands back the very same cell — payload, owner
and freeze flag untouched — in the error variant. -/
theorem iCell.try_into_inner_frame {α : Type} (c : iCell α) (t : ThreadId)
    (h : iCell.is_valid t c = false) :
    iCell.try_into_inner t c = some (Except.error c) := by
  simp [iCell.try_into_inner, h]

/-- Witness for C8 at a concrete cell and a foreign thread. -/
theorem iCell.try_into_inner_frame_witness :
    iCell.is_valid 1 (iCell.new (7 : Nat) false 0) = false ∧
    iCell.try_into_inner 1 (iCell.new (7 : Nat) false 0) =
      some (Except.error (iCell.new (7 : Nat) false 0)) :=
  ⟨by decide,
    iCell.try_into_inner_frame (iCell.new (7 : Nat) false 0) 1 (by decide)⟩

/-- C9: structured debug formatting is a total function of the cell — it
never aborts on any thread — and it prints the payload through the checked
accessor when the caller is the owner, substituting the placeholder text
when access is denied. -/
theorem iCell.debug_fmt_spec {α : Type} (dbg : α → String) (c : iCell α)
    (t : ThreadId) :
    iCell.debug_fmt dbg t c =
      if iCell.is_valid t c then
        "Fragile \x7b value: " ++ dbg c.value ++ " \x7d"
      else
        "Fragile \x7b value: <invalid thread> \x7d" := by
  cases h : iCell.is_valid t c <;>
    simp [iCell.debug_fmt, iCell.try_get, h]

/-- C10: cloning reads the payload through the unchecked accessor, so it
panics (`none`) exactly when `is_valid` is false; on the owner thread it
yields a fresh unfrozen cell owned by the cloning thread. -/
theorem iCell.clone_owner_gated {α : Type} (c : iCell α) (t : ThreadId) :
    (iCell.clone t c = none ↔ iCell.is_valid t c = false) ∧
    (iCell.is_valid t c = true →
      iCell.clone t c = some (iCell.new c.value false t)) := by
  cases h : iCell.is_valid t c <;>
    simp [iCell.clone, iCell.get, iCell.assert_thread, h]

/-- Witness for C10: cloning a concrete cell on its owner thread succeeds
with a fresh cell. -/
theorem iCell.clone_owner_gated_witness :
    iCell.clone 0 (iCell.new (2 : Nat) false 0) =
      some (iCell.new (2 : Nat) false 0) :=
  (iCell.clone_owner_gated (iCell.new (2 : Nat) false 0) 0).2 (by decide)

end IBag
